import Mathlib

/-!
Verification of the stereo-DIC Blender orchestration script
`src/blender/run_blender_glass.py` against its specification.

The script is a straight-line sequence of calls into external collaborators
(a finite-element result reader, the pyvale sensor-simulation library, and
the Blender scripting API).  We embed it as a parameterized step list over an
event alphabet: each external call becomes an event carrying the concrete
arguments the script passes, and the single internal validation (the
stereo-rig selector check) becomes a raise step.  A runner executes the steps
against a failure oracle for the external calls, producing the executed trace
and an optional error.  Data that the spec describes but whose implementation
lives outside this repository (the stereo-camera constructors, calibration
serialization, image naming, the Blender material node graph and object
registry) is modelled from the spec, with doc comments marking each such
definition.
-/

/-- A 3-vector of exact rationals (the embedding of numpy float triples). -/
structure Vec3 where
  x : ℚ
  y : ℚ
  z : ℚ
deriving DecidableEq

/-- Camera parameter bundle, mirroring the fields the script passes to
`sens.CameraData` at lines 90-95. -/
structure CameraData where
  pixels_num_x : ℤ
  pixels_num_y : ℤ
  pixels_size_x : ℚ
  pixels_size_y : ℚ
  pos_world : Vec3
  rot_world : Vec3
  roi_cent_world : Vec3
  focal_length : ℚ
deriving DecidableEq

/-- The light types used by the script (only POINT appears). -/
inductive LightType where
  | POINT
deriving DecidableEq

/-- Light parameter bundle, mirroring `blender.LightData` at lines 114-118. -/
structure LightData where
  type : LightType
  pos_world : Vec3
  rot_world : Vec3
  energy : ℚ
deriving DecidableEq

/-- Modelled from the spec: `blender.MaterialData` is an opaque parameter
bundle for the speckle material ("material creation" configuration values);
its internals are external, so it is carried as an opaque list of numeric
parameters. -/
structure MaterialData where
  params : List ℚ
deriving DecidableEq

/-- Modelled from the spec: a simulation result set as returned by the
external finite-element reader, exposing nodal coordinates, time steps and
named nodal fields (e.g. displacement components). -/
structure SimData where
  coords : List Vec3
  time : List ℚ
  node_vars : List (String × List ℚ)
deriving DecidableEq

/-- Modelled from the spec: `sens.scale_length_units` scales every length
quantity of the simulation data set (the nodal coordinates and the named
displacement components listed in `disp_comps`) by the factor `scale`;
non-displacement fields are untouched. -/
def scale_length_units (scale : ℚ) (sim_data : SimData)
    (disp_comps : List String) : SimData :=
  { sim_data with
    coords := sim_data.coords.map (fun v => ⟨scale * v.x, scale * v.y, scale * v.z⟩)
    node_vars := sim_data.node_vars.map
      (fun nv => if nv.1 ∈ disp_comps then (nv.1, nv.2.map (fun q => scale * q)) else nv) }

/-- Modelled from the spec: `sens.create_render_mesh` skins the simulation
mesh into a deformable render mesh carrying the surface coordinates and one
deformation state per simulation time step. -/
structure RenderMeshData where
  coords : List Vec3
  frames : ℕ
  view_comps : List String
  sim_spat_dim : ℕ
  field_disp_keys : List String
deriving DecidableEq

/-- Modelled from the spec: construction of the render mesh from a simulation
data set (one deformation frame per simulation time step). -/
def create_render_mesh (sim_data : SimData) (view_comps : List String)
    (sim_spat_dim : ℕ) (field_disp_keys : List String) : RenderMeshData :=
  { coords := sim_data.coords
    frames := sim_data.time.length
    view_comps := view_comps
    sim_spat_dim := sim_spat_dim
    field_disp_keys := field_disp_keys }

/-- The two stereo-rig geometries offered by `sens.CameraTools`. -/
inductive StereoKind where
  | symmetric
  | faceon
deriving DecidableEq

/-- Modelled from the spec: a stereo camera pair built from one camera
parameter bundle and a stereo angle ("stereo camera pair placement from
calibration parameters").  The geometric derivation of the second camera is
external; what matters for the claims is that the pair is a deterministic
function of the constructor, the base camera data and the angle. -/
structure StereoSystem where
  kind : StereoKind
  cam_data_0 : CameraData
  cam_data_1 : CameraData
  stereo_angle : ℚ
deriving DecidableEq

/-- Modelled from the spec: `CameraTools.symmetric_stereo_cameras` builds a
symmetric stereo rig from the base camera data and the stereo angle. -/
def symmetric_stereo_cameras (cam_data_0 : CameraData) (stereo_angle : ℚ) :
    StereoSystem :=
  { kind := StereoKind.symmetric
    cam_data_0 := cam_data_0
    cam_data_1 := { cam_data_0 with
      rot_world := ⟨cam_data_0.rot_world.x, cam_data_0.rot_world.y + stereo_angle,
                    cam_data_0.rot_world.z⟩ }
    stereo_angle := stereo_angle }

/-- Modelled from the spec: `CameraTools.faceon_stereo_cameras` builds a
face-on stereo rig from the base camera data and the stereo angle. -/
def faceon_stereo_cameras (cam_data_0 : CameraData) (stereo_angle : ℚ) :
    StereoSystem :=
  { kind := StereoKind.faceon
    cam_data_0 := cam_data_0
    cam_data_1 := { cam_data_0 with
      rot_world := ⟨cam_data_0.rot_world.x, cam_data_0.rot_world.y - stereo_angle,
                    cam_data_0.rot_world.z⟩ }
    stereo_angle := stereo_angle }

/-- The stereo system the selector routes to, mirroring the if/elif/else at
lines 98-108 of the script (`none` for an unrecognized selector, where the
script raises instead). -/
def stereoSystemOf (sel : String) (cam : CameraData) : Option StereoSystem :=
  if sel = "symmetric" then some (symmetric_stereo_cameras cam 15)
  else if sel = "faceon" then some (faceon_stereo_cameras cam 10)
  else none

/-- A link in a Blender material node tree, as created by
`node_tree.links.new(inp, outp)`: it connects an output socket of one node to
an input socket of another. -/
structure NodeLink where
  to_node : String
  to_input : String
  from_node : String
  from_output : String
deriving DecidableEq

/-- Modelled from the spec: a shader node of the Blender material node graph;
`ior` is the default value of its IOR input socket when one has been set. -/
structure ShaderNode where
  name : String
  node_type : String
  ior : Option ℚ
deriving DecidableEq

/-- Modelled from the spec: a Blender material with its node graph. -/
structure BMaterial where
  name : String
  use_nodes : Bool
  nodes : List ShaderNode
  links : List NodeLink
deriving DecidableEq

/-- Modelled from the spec: `bpy.data.materials.new(name)` creates a material
with no node tree. -/
def materials_new (name : String) : BMaterial :=
  { name := name, use_nodes := false, nodes := [], links := [] }

/-- Modelled from the spec: setting `use_nodes = True` initializes the node
tree with the default Principled BSDF node and the Material Output node. -/
def set_use_nodes (m : BMaterial) : BMaterial :=
  { m with
    use_nodes := true
    nodes := [⟨"Principled BSDF", "ShaderNodeBsdfPrincipled", none⟩,
              ⟨"Material Output", "ShaderNodeOutputMaterial", none⟩] }

/-- Modelled from the spec: `nodes.new(type="ShaderNodeBsdfGlass")` appends a
Glass BSDF node to the node tree. -/
def nodes_new_glass (m : BMaterial) : BMaterial :=
  { m with nodes := m.nodes ++ [⟨"Glass BSDF", "ShaderNodeBsdfGlass", none⟩] }

/-- Modelled from the spec: `glass.inputs["IOR"].default_value = v` sets the
IOR input of the Glass BSDF node. -/
def set_glass_ior (m : BMaterial) (v : ℚ) : BMaterial :=
  { m with
    nodes := m.nodes.map
      (fun n => if n.node_type = "ShaderNodeBsdfGlass" then { n with ior := some v } else n) }

/-- Modelled from the spec: `node_tree.links.new(inp, outp)` appends a link. -/
def links_new (m : BMaterial) (l : NodeLink) : BMaterial :=
  { m with links := m.links ++ [l] }

/-- The glass material built by lines 137-144 of the script: create
"Material.001", enable nodes, add a Glass BSDF node, set its IOR to 1.3777,
and link the Glass BSDF output to the Material Output Surface input. -/
def glassMaterial : BMaterial :=
  links_new
    (set_glass_ior (nodes_new_glass (set_use_nodes (materials_new "Material.001")))
      (13777 / 10000))
    ⟨"Material Output", "Surface", "Glass BSDF", "BSDF"⟩

/-- Modelled from the spec: an entry of the host application object registry
`bpy.data.objects`, with its name and its active material. -/
structure BObject where
  name : String
  active_material : Option String
deriving DecidableEq

/-- Modelled from the spec: by-name lookup in the global object registry,
`bpy.data.objects[name]`; `none` models the KeyError for a missing name. -/
def lookupObject (objs : List BObject) (name : String) : Option BObject :=
  objs.find? (fun o => o.name = name)

/-- The glass-material assignment at line 145 of the script: resolve the
target object by the string name "Part.001" in the global registry and set
its active material to "Material.001"; fails (`none`) when no object of that
name exists. -/
def assignGlass (objs : List BObject) : Option (List BObject) :=
  match lookupObject objs "Part.001" with
  | none => none
  | some _ => some (objs.map
      (fun o => if o.name = "Part.001"
                then { o with active_material := some "Material.001" } else o))

/-- The path of the first simulation input, `dataset.render_mechanical_3d_path()`
(a bundled example data set of the pyvale library). -/
def data_path1 : String := "pyvale-dataset:render_mechanical_3d.e"

/-- The path of the second simulation input, `Path.cwd() / "moose/input/circular_glass_out.e"`. -/
def data_path2 : String := "moose/input/circular_glass_out.e"

/-- The speckle-pattern image path, `dataset.dic_pattern_5mpx_path()`. -/
def speckle_path : String := "pyvale-dataset:dic_pattern_5mpx.tiff"

/-- The output base directory, `Path.cwd() / "blender/glass"`. -/
def base_dir : String := "blender/glass"

/-- The displacement component names of the script (line 45). -/
def disp_comps : List String := ["disp_x", "disp_y", "disp_z"]

/-- The camera parameter bundle built at lines 90-95 of the script. -/
def cam_data_0 : CameraData :=
  { pixels_num_x := 5328
    pixels_num_y := 4608
    pixels_size_x := 345 / 100000
    pixels_size_y := 345 / 100000
    pos_world := ⟨0, 0, 400⟩
    rot_world := ⟨0, 0, 0⟩
    roi_cent_world := ⟨0, 0, 0⟩
    focal_length := 15 }

/-- The light parameter bundle built at lines 114-118 of the script. -/
def light_data : LightData :=
  { type := LightType.POINT
    pos_world := ⟨200, 0, 200⟩
    rot_world := ⟨0, 4 / 5, 0⟩
    energy := 2 }

/-- The configurable inputs of a script run: the stereo-rig selector, the
contents of the two simulation files, and the camera, light, material and
render parameter bundles (the script fixes them to literals; the claims
quantify over them). -/
structure ScriptParams where
  stereo_setup : String
  sim_data_1 : SimData
  sim_data_2 : SimData
  cam_data_0 : CameraData
  light_data : LightData
  mat_data : MaterialData
  threads : ℕ
  samples : ℕ

/-- The parameter values hard-coded in the script (with example contents for
the two simulation input files, which the script reads from disk). -/
def exampleSim : SimData :=
  { coords := [⟨0, 0, 0⟩, ⟨1, 0, 0⟩, ⟨0, 1, 0⟩]
    time := [0, 1]
    node_vars := [("disp_x", [0, 0, 0]), ("disp_y", [0, 0, 0]), ("disp_z", [0, 0, 0])] }

/-- The script as shipped: selector "faceon", the literal camera, light and
render parameters, and example simulation contents. -/
def codeParams : ScriptParams :=
  { stereo_setup := "faceon"
    sim_data_1 := exampleSim
    sim_data_2 := exampleSim
    cam_data_0 := cam_data_0
    light_data := light_data
    mat_data := ⟨[]⟩
    threads := 8
    samples := 40 }

/-- Modelled from the spec: `render_deformed_images` renders one image per
camera per deformation time step into `dir/blenderimages`, with
deterministically generated file names. -/
def render_image_filenames (dir : String) (frames : ℕ) : List String :=
  (List.range frames).flatMap
    (fun f => [dir ++ "/blenderimages/cam0_frame" ++ toString f ++ ".tiff",
               dir ++ "/blenderimages/cam1_frame" ++ toString f ++ ".tiff"])

/-- The host renderer samples each frame internally; the pixel content of the
rendered frames is an arbitrary function of the frame index, supplied as the
`sampling` argument of a run. -/
def renderPixels (sampling : ℕ → ℕ) (frames : ℕ) : List ℕ :=
  (List.range frames).map sampling

/-- One observable effect of the script: an external collaborator call with
the concrete arguments the script passes at that point. -/
inductive Event where
  | readSimFile (path : String)
  | scaleUnits (scale : ℚ) (dataset : ℕ)
  | createMesh (dataset : ℕ)
  | constructScene
  | addPart (meshId : ℕ)
  | moveObj (objId : ℕ) (pos : Vec3)
  | rotateObj (objId : ℕ) (rot : Vec3)
  | constructCamData (cam : CameraData)
  | symmetricStereoCall (sys : StereoSystem)
  | faceonStereoCall (sys : StereoSystem)
  | addStereoSystem
  | saveCalibration (dir : String) (sys : Option StereoSystem)
  | addLight (light : LightData)
  | calcResolution (cam : CameraData)
  | addSpeckle (partId : ℕ) (path : String) (mat : MaterialData)
  | newMaterial (matName : String)
  | setUseNodes (matName : String)
  | newGlassNode (matName : String)
  | setGlassIor (matName : String) (v : ℚ)
  | newLink (matName : String) (l : NodeLink)
  | assignActiveMaterial (objName : String) (matName : String)
  | renderDeformed (dir : String) (meshId : ℕ) (partId : ℕ) (files : List String)
      (pixels : List ℕ) (threads : ℕ) (samples : ℕ)
  | saveBlenderFile (dir : String)
deriving DecidableEq

/-- One step of the script: either an external collaborator call emitting an
event, or the internal fail-fast validation raising a ValueError. -/
inductive Step where
  | ext (e : Event)
  | raiseValueError (msg : String)
deriving DecidableEq

/-- An error terminating a run: the ValueError of the script itself, or an unhandled
failure propagated from an external collaborator call. -/
inductive Err where
  | valueError (msg : String)
  | hostFailure (msg : String)
deriving DecidableEq

/-- The steps of the stereo-rig branch at lines 98-108: route to the
symmetric or the face-on camera-pair constructor by the selector string, or
raise a ValueError for any other selector. -/
def stereoBranch (sel : String) (cam : CameraData) : List Step :=
  if sel = "symmetric" then
    [Step.ext (Event.symmetricStereoCall (symmetric_stereo_cameras cam 15))]
  else if sel = "faceon" then
    [Step.ext (Event.faceonStereoCall (faceon_stereo_cameras cam 10))]
  else
    [Step.raiseValueError ("Unknown stereo_setup: " ++ sel)]

/-- The straight-line step sequence of the script, in source order (lines
33-183), parameterized by the run inputs and by the internal
sampling. -/
def scriptSteps (p : ScriptParams) (sampling : ℕ → ℕ) : List Step :=
  [Step.ext (Event.readSimFile data_path1),
   Step.ext (Event.readSimFile data_path2),
   Step.ext (Event.scaleUnits 1000 1),
   Step.ext (Event.scaleUnits 1000 2),
   Step.ext (Event.createMesh 1),
   Step.ext (Event.createMesh 2),
   Step.ext Event.constructScene,
   Step.ext (Event.addPart 1),
   Step.ext (Event.addPart 2),
   Step.ext (Event.moveObj 2 ⟨0, 0, 200⟩),
   Step.ext (Event.rotateObj 1 ⟨0, 0, 0⟩),
   Step.ext (Event.constructCamData p.cam_data_0)]
  ++ stereoBranch p.stereo_setup p.cam_data_0
  ++ [Step.ext Event.addStereoSystem,
      Step.ext (Event.saveCalibration base_dir (stereoSystemOf p.stereo_setup p.cam_data_0)),
      Step.ext (Event.addLight p.light_data),
      Step.ext (Event.calcResolution p.cam_data_0),
      Step.ext (Event.addSpeckle 1 speckle_path p.mat_data),
      Step.ext (Event.newMaterial "Material.001"),
      Step.ext (Event.setUseNodes "Material.001"),
      Step.ext (Event.newGlassNode "Material.001"),
      Step.ext (Event.setGlassIor "Material.001" (13777 / 10000)),
      Step.ext (Event.newLink "Material.001" ⟨"Material Output", "Surface", "Glass BSDF", "BSDF"⟩),
      Step.ext (Event.assignActiveMaterial "Part.001" "Material.001"),
      Step.ext (Event.renderDeformed base_dir 2 2
        (render_image_filenames base_dir
          (create_render_mesh (scale_length_units 1000 p.sim_data_2 disp_comps)
            ["disp_y", "disp_x"] 3 disp_comps).frames)
        (renderPixels sampling
          (create_render_mesh (scale_length_units 1000 p.sim_data_2 disp_comps)
            ["disp_y", "disp_x"] 3 disp_comps).frames)
        p.threads p.samples),
      Step.ext (Event.saveBlenderFile base_dir)]

/-- Runs the steps in order against a failure oracle for the external calls
(the list entry consumed at each external call says whether that collaborator
call fails, and with what message).  Returns the trace of completed events
and the terminating error, if any: a raise stops the run with a ValueError,
and a failing external call stops the run with that failure propagated
unhandled. -/
def runSteps : List Step → List (Option String) → List Event → List Event × Option Err
  | [], _, tr => (tr, none)
  | Step.raiseValueError m :: _, _, tr => (tr, some (Err.valueError m))
  | Step.ext e :: rest, fs, tr =>
    match fs with
    | some m :: _ => (tr, some (Err.hostFailure m))
    | none :: fs2 => runSteps rest fs2 (tr ++ [e])
    | [] => runSteps rest [] (tr ++ [e])

/-- A run of the script: execute its steps from the empty trace.  The empty
oracle `[]` is the run in which every external collaborator call succeeds. -/
def runScript (p : ScriptParams) (fails : List (Option String)) (sampling : ℕ → ℕ) :
    List Event × Option Err :=
  runSteps (scriptSteps p sampling) fails []

/-- The oracle making exactly the external call of index `j` fail with
message `m`. -/
def failAt (j : ℕ) (m : String) : List (Option String) :=
  List.replicate j none ++ [some m]

/-- The simulation file paths read through the external reader during a
trace. -/
def simFileReads (tr : List Event) : List String :=
  tr.filterMap (fun e => match e with
    | Event.readSimFile p => some p
    | _ => none)

/-- The speckle-pattern image paths read during a trace. -/
def speckleReads (tr : List Event) : List String :=
  tr.filterMap (fun e => match e with
    | Event.addSpeckle _ p _ => some p
    | _ => none)

/-- The base directories of every filesystem output of a trace (calibration
file, rendered images, saved project file). -/
def outputDirs (tr : List Event) : List String :=
  tr.filterMap (fun e => match e with
    | Event.saveCalibration d _ => some d
    | Event.renderDeformed d _ _ _ _ _ _ => some d
    | Event.saveBlenderFile d => some d
    | _ => none)

/-- The calibration file contents written during a trace (directory and the
stereo system the file is produced from). -/
def calibWrites (tr : List Event) : List (String × Option StereoSystem) :=
  tr.filterMap (fun e => match e with
    | Event.saveCalibration d s => some (d, s)
    | _ => none)

/-- All image file names produced by deformed-sequence rendering in a trace.
-/
def renderedFilenames (tr : List Event) : List String :=
  (tr.filterMap (fun e => match e with
    | Event.renderDeformed _ _ _ files _ _ _ => some files
    | _ => none)).flatten

/-- The (render mesh, deformed part) identifier pairs of every
deformed-sequence render call of a trace. -/
def deformCalls (tr : List Event) : List (ℕ × ℕ) :=
  tr.filterMap (fun e => match e with
    | Event.renderDeformed _ mid pid _ _ _ _ => some (mid, pid)
    | _ => none)

/-- The stereo camera-pair constructor calls of a trace. -/
def stereoCalls (tr : List Event) : List Event :=
  tr.filter (fun e => match e with
    | Event.symmetricStereoCall _ => true
    | Event.faceonStereoCall _ => true
    | _ => false)

/-- Recognizes the calibration-file write event. -/
def isCalibEvent : Event → Bool
  | Event.saveCalibration _ _ => true
  | _ => false

/-- Recognizes every light, speckle, material or render configuration event.
-/
def isSceneConfigEvent : Event → Bool
  | Event.addLight _ => true
  | Event.addSpeckle _ _ _ => true
  | Event.newMaterial _ => true
  | Event.setUseNodes _ => true
  | Event.newGlassNode _ => true
  | Event.setGlassIor _ _ => true
  | Event.newLink _ _ => true
  | Event.assignActiveMaterial _ _ => true
  | Event.renderDeformed _ _ _ _ _ _ _ => true
  | _ => false

/-- The script parameters with an unrecognized stereo selector in place of
the shipped one. -/
def bogusParams : ScriptParams := { codeParams with stereo_setup := "bogus" }

/-- The script parameters with the symmetric stereo selector in place of the
shipped one. -/
def symParams : ScriptParams := { codeParams with stereo_setup := "symmetric" }

/-- Script parameters agreeing with `codeParams` on the camera data and the
stereo selector but differing in the light, material and render settings. -/
def altParams : ScriptParams :=
  { codeParams with
    light_data := { light_data with energy := 5 }
    mat_data := ⟨[1]⟩
    threads := 2
    samples := 100 }

theorem runSteps_shift (steps : List Step) :
    ∀ (fs : List (Option String)) (tr : List Event),
      runSteps steps fs tr
        = (tr ++ (runSteps steps fs []).1, (runSteps steps fs []).2) := by
  induction steps with
  | nil => intro fs tr; simp [runSteps]
  | cons s rest ih =>
    intro fs tr
    cases s with
    | raiseValueError m => simp [runSteps]
    | ext e =>
      cases fs with
      | nil =>
        rw [show runSteps (Step.ext e :: rest) [] tr = runSteps rest [] (tr ++ [e]) from rfl,
            show runSteps (Step.ext e :: rest) [] [] = runSteps rest [] [e] from rfl,
            ih [] (tr ++ [e]), ih [] [e]]
        simp
      | cons f fs2 =>
        cases f with
        | some m => simp [runSteps]
        | none =>
          rw [show runSteps (Step.ext e :: rest) (none :: fs2) tr
                = runSteps rest fs2 (tr ++ [e]) from rfl,
              show runSteps (Step.ext e :: rest) (none :: fs2) []
                = runSteps rest fs2 [e] from rfl,
              ih fs2 (tr ++ [e]), ih fs2 [e]]
          simp

theorem runSteps_failAt_split (steps : List Step) :
    ∀ (j : ℕ) (m : String) (tr : List Event),
      runSteps steps (failAt j m) tr
          = (tr ++ (runSteps steps [] []).1.take j, some (Err.hostFailure m))
      ∨ runSteps steps (failAt j m) tr = runSteps steps [] tr := by
  induction steps with
  | nil => intro j m tr; right; rfl
  | cons s rest ih =>
    intro j m tr
    cases s with
    | raiseValueError msg => right; rfl
    | ext e =>
      cases j with
      | zero =>
        left
        simp [failAt, runSteps]
      | succ j2 =>
        have hfa : failAt (j2 + 1) m = none :: failAt j2 m := by
          simp [failAt, List.replicate_succ]
        rw [hfa,
            show runSteps (Step.ext e :: rest) (none :: failAt j2 m) tr
              = runSteps rest (failAt j2 m) (tr ++ [e]) from rfl]
        rcases ih j2 m (tr ++ [e]) with h | h
        · left
          rw [h,
              show runSteps (Step.ext e :: rest) [] [] = runSteps rest [] [e] from rfl,
              runSteps_shift rest [] [e]]
          simp [List.take_succ_cons]
        · right
          rw [h]
          rfl

theorem runSteps_allOk_err (steps : List Step) :
    ∀ (tr : List Event) (e : Err), (runSteps steps [] tr).2 = some e →
      ∃ m, Step.raiseValueError m ∈ steps ∧ e = Err.valueError m := by
  induction steps with
  | nil => intro tr e h; simp [runSteps] at h
  | cons s rest ih =>
    intro tr e h
    cases s with
    | raiseValueError m =>
      refine ⟨m, List.mem_cons_self _ _, ?_⟩
      simp [runSteps] at h
      exact h.symm
    | ext ev =>
      obtain ⟨m, hm, he⟩ := ih (tr ++ [ev]) e h
      exact ⟨m, List.mem_cons_of_mem _ hm, he⟩

theorem scriptSteps_raise (p : ScriptParams) (s : ℕ → ℕ) (m : String)
    (h : Step.raiseValueError m ∈ scriptSteps p s) :
    m = "Unknown stereo_setup: " ++ p.stereo_setup := by
  by_cases h1 : p.stereo_setup = "symmetric"
  · simp [scriptSteps, stereoBranch, h1] at h
  · by_cases h2 : p.stereo_setup = "faceon"
    · simp [scriptSteps, stereoBranch, h1, h2] at h
    · simp [scriptSteps, stereoBranch, h1, h2] at h
      exact h

theorem map_scale_inv (vs : List ℚ) :
    (vs.map (fun q => (1000 : ℚ) * q)).map (fun q => (1 / 1000 : ℚ) * q) = vs := by
  induction vs with
  | nil => rfl
  | cons q rest ih =>
    simp only [List.map_cons, ih, List.cons.injEq, and_true]
    rw [← mul_assoc]
    norm_num

theorem map_scale_inv_vec (vs : List Vec3) :
    (vs.map (fun v : Vec3 => (⟨1000 * v.x, 1000 * v.y, 1000 * v.z⟩ : Vec3))).map
        (fun v : Vec3 => (⟨(1 / 1000) * v.x, (1 / 1000) * v.y, (1 / 1000) * v.z⟩ : Vec3))
      = vs := by
  induction vs with
  | nil => rfl
  | cons v rest ih =>
    simp only [List.map_cons, ih, List.cons.injEq, and_true]
    obtain ⟨x, y, z⟩ := v
    simp only [Vec3.mk.injEq]
    refine ⟨?_, ?_, ?_⟩ <;> (rw [← mul_assoc]; norm_num)

/-- C3: applying `scale_length_units` with scale 1000 and then with scale
1/1000 reproduces the original simulation data set exactly (the scaling
composed with its inverse is the identity on the displacement fields, and on
the coordinates as well); over the exact rationals of the embedding equality
is on the nose, hence in particular within floating-point tolerance. -/
theorem c3_scale_units_inverse (sim_data : SimData) (dc : List String) :
    scale_length_units (1 / 1000) (scale_length_units 1000 sim_data dc) dc = sim_data := by
  obtain ⟨coords, time, node_vars⟩ := sim_data
  simp only [scale_length_units, SimData.mk.injEq]
  refine ⟨map_scale_inv_vec coords, trivial, ?_⟩
  induction node_vars with
  | nil => rfl
  | cons nv rest ih =>
    simp only [List.map_cons, List.cons.injEq]
    refine ⟨?_, ih⟩
    obtain ⟨n, vs⟩ := nv
    by_cases hmem : n ∈ dc
    · simp [hmem, map_scale_inv]
    · simp [hmem]

/-- C10: the glass material construction produces a node-based material named
"Material.001" containing a Glass BSDF node whose IOR input is exactly
1.3777, with the Glass BSDF output linked to the Surface input of the
Material Output node. -/
theorem c10_glass_material :
    glassMaterial.name = "Material.001" ∧
    glassMaterial.use_nodes = true ∧
    (∃ n ∈ glassMaterial.nodes,
      n.node_type = "ShaderNodeBsdfGlass" ∧ n.name = "Glass BSDF" ∧
        n.ior = some (13777 / 10000)) ∧
    (⟨"Material Output", "Surface", "Glass BSDF", "BSDF"⟩ : NodeLink) ∈ glassMaterial.links := by
  refine ⟨rfl, rfl,
    ⟨⟨"Glass BSDF", "ShaderNodeBsdfGlass", some (13777 / 10000)⟩, ?_, rfl, rfl, rfl⟩, ?_⟩
  · simp [glassMaterial, links_new, set_glass_ior, nodes_new_glass, set_use_nodes,
      materials_new]
  · simp [glassMaterial, links_new, set_glass_ior, nodes_new_glass, set_use_nodes,
      materials_new]

/-- C2: the camera-pair construction path is uniquely determined by the
selector: "symmetric" reaches exactly one stereo constructor call, the
symmetric one with stereo angle 15; "faceon" reaches exactly the face-on one
with stereo angle 10; any other selector reaches neither. -/
theorem c2_stereo_routing (p : ScriptParams) (s : ℕ → ℕ) :
    (p.stereo_setup = "symmetric" →
      stereoCalls (runScript p [] s).1
        = [Event.symmetricStereoCall (symmetric_stereo_cameras p.cam_data_0 15)]) ∧
    (p.stereo_setup = "faceon" →
      stereoCalls (runScript p [] s).1
        = [Event.faceonStereoCall (faceon_stereo_cameras p.cam_data_0 10)]) ∧
    (p.stereo_setup ≠ "symmetric" → p.stereo_setup ≠ "faceon" →
      stereoCalls (runScript p [] s).1 = []) := by
  refine ⟨?_, ?_, ?_⟩
  · intro h
    simp [runScript, scriptSteps, stereoBranch, h, runSteps, stereoCalls]
  · intro h
    simp [runScript, scriptSteps, stereoBranch, h, runSteps, stereoCalls]
  · intro h1 h2
    simp [runScript, scriptSteps, stereoBranch, h1, h2, runSteps, stereoCalls]

/-- Witness for C2: the concrete routing at the selectors "symmetric",
"faceon" (the shipped value) and "bogus". -/
theorem c2_stereo_routing_witness :
    stereoCalls (runScript symParams [] id).1
        = [Event.symmetricStereoCall (symmetric_stereo_cameras cam_data_0 15)] ∧
    stereoCalls (runScript codeParams [] id).1
        = [Event.faceonStereoCall (faceon_stereo_cameras cam_data_0 10)] ∧
    stereoCalls (runScript bogusParams [] id).1 = [] :=
  ⟨(c2_stereo_routing symParams id).1 rfl,
   (c2_stereo_routing codeParams id).2.1 rfl,
   (c2_stereo_routing bogusParams id).2.2 (by decide) (by decide)⟩

/-- C1 counterexample: with the unrecognized selector "bogus" the script does
fail with the descriptive ValueError, but the scene and both parts have
already been constructed when it does: their construction events are in the
executed trace, contradicting the claim that the failure occurs before any
scene object is constructed. -/
theorem c1_counterexample :
    (runScript bogusParams [] id).2
        = some (Err.valueError "Unknown stereo_setup: bogus") ∧
    Event.constructScene ∈ (runScript bogusParams [] id).1 ∧
    Event.addPart 1 ∈ (runScript bogusParams [] id).1 ∧
    Event.addPart 2 ∈ (runScript bogusParams [] id).1 := by
  refine ⟨?_, ?_, ?_, ?_⟩ <;>
    simp [runScript, scriptSteps, stereoBranch, runSteps, bogusParams, codeParams]

/-- C1 (amended): for every selector outside {"symmetric","faceon"} the
script fails with the descriptive ValueError before any stereo camera pair is
constructed or added to the scene; however the scene, both parts and the
camera data bundle have already been constructed when the failure occurs. -/
theorem c1_unknown_selector (p : ScriptParams) (s : ℕ → ℕ)
    (h1 : p.stereo_setup ≠ "symmetric") (h2 : p.stereo_setup ≠ "faceon") :
    (runScript p [] s).2
        = some (Err.valueError ("Unknown stereo_setup: " ++ p.stereo_setup)) ∧
    stereoCalls (runScript p [] s).1 = [] ∧
    Event.addStereoSystem ∉ (runScript p [] s).1 ∧
    Event.constructScene ∈ (runScript p [] s).1 ∧
    Event.addPart 1 ∈ (runScript p [] s).1 ∧
    Event.addPart 2 ∈ (runScript p [] s).1 ∧
    Event.constructCamData p.cam_data_0 ∈ (runScript p [] s).1 := by
  refine ⟨?_, ?_, ?_, ?_, ?_, ?_, ?_⟩ <;>
    simp [runScript, scriptSteps, stereoBranch, runSteps, h1, h2, stereoCalls]

/-- Witness for C1 (amended) at the concrete selector "bogus". -/
theorem c1_unknown_selector_witness :
    (runScript bogusParams [] id).2
        = some (Err.valueError ("Unknown stereo_setup: " ++ bogusParams.stereo_setup)) ∧
    stereoCalls (runScript bogusParams [] id).1 = [] ∧
    Event.addStereoSystem ∉ (runScript bogusParams [] id).1 ∧
    Event.constructScene ∈ (runScript bogusParams [] id).1 ∧
    Event.addPart 1 ∈ (runScript bogusParams [] id).1 ∧
    Event.addPart 2 ∈ (runScript bogusParams [] id).1 ∧
    Event.constructCamData bogusParams.cam_data_0 ∈ (runScript bogusParams [] id).1 :=
  c1_unknown_selector bogusParams id (by decide) (by decide)

/-- C5 counterexample: the script reads two distinct simulation files through
the external simulation-result reader, not one. -/
theorem c5_counterexample :
    simFileReads (runScript codeParams [] id).1 = [data_path1, data_path2] ∧
    data_path1 ≠ data_path2 := by
  constructor
  · simp [runScript, scriptSteps, stereoBranch, runSteps, codeParams, simFileReads]
  · decide

/-- C5 (amended): the script reads exactly two input simulation files via the
simulation-result reader; together with one speckle-pattern image they are
its filesystem input surface, and every filesystem output (calibration file,
rendered images, saved project file) is written under the single output base
directory. -/
theorem c5_two_sim_inputs (p : ScriptParams) (s : ℕ → ℕ)
    (hvalid : p.stereo_setup = "symmetric" ∨ p.stereo_setup = "faceon") :
    simFileReads (runScript p [] s).1 = [data_path1, data_path2] ∧
    speckleReads (runScript p [] s).1 = [speckle_path] ∧
    outputDirs (runScript p [] s).1 = [base_dir, base_dir, base_dir] := by
  rcases hvalid with h | h <;>
    refine ⟨?_, ?_, ?_⟩ <;>
      simp [runScript, scriptSteps, stereoBranch, runSteps, h,
        simFileReads, speckleReads, outputDirs]

/-- Witness for C5 (amended) at the shipped parameters. -/
theorem c5_two_sim_inputs_witness :
    simFileReads (runScript codeParams [] id).1 = [data_path1, data_path2] ∧
    speckleReads (runScript codeParams [] id).1 = [speckle_path] ∧
    outputDirs (runScript codeParams [] id).1 = [base_dir, base_dir, base_dir] :=
  c5_two_sim_inputs codeParams id (Or.inr rfl)

/-- C7: failures of external collaborator calls propagate unhandled: a run
whose j-th external call fails stops at exactly that call with the
collaborator failure as its own result (no handler, retry or partial
recovery), unless the call is never reached, in which case the run is
unchanged; and the only error the script originates itself is the ValueError
for an unrecognized stereo selector. -/
theorem c7_failure_propagation (p : ScriptParams) (s : ℕ → ℕ) (j : ℕ) (m : String) :
    (runScript p (failAt j m) s
        = ((runScript p [] s).1.take j, some (Err.hostFailure m))
      ∨ runScript p (failAt j m) s = runScript p [] s) ∧
    (∀ e, (runScript p [] s).2 = some e →
      e = Err.valueError ("Unknown stereo_setup: " ++ p.stereo_setup)) := by
  constructor
  · rcases runSteps_failAt_split (scriptSteps p s) j m [] with h | h
    · left
      rw [runScript, h]
      simp [runScript]
    · right
      exact h
  · intro e he
    obtain ⟨m2, hm2, he2⟩ := runSteps_allOk_err (scriptSteps p s) [] e he
    rw [he2, scriptSteps_raise p s m2 hm2]

/-- Witness for C7: a failing third external call at the shipped parameters,
and the self-originated error of the "bogus" run. -/
theorem c7_failure_propagation_witness :
    (runScript codeParams (failAt 3 "io failure") id
        = ((runScript codeParams [] id).1.take 3, some (Err.hostFailure "io failure"))
      ∨ runScript codeParams (failAt 3 "io failure") id = runScript codeParams [] id) ∧
    Err.valueError "Unknown stereo_setup: bogus"
      = Err.valueError ("Unknown stereo_setup: " ++ bogusParams.stereo_setup) :=
  ⟨(c7_failure_propagation codeParams id 3 "io failure").1,
   (c7_failure_propagation bogusParams id 0 "unused").2
     (Err.valueError "Unknown stereo_setup: bogus") (by decide)⟩

/-- C8: every deformed-sequence render call of a run targets the window (the
part built from the second render mesh, the circular glass simulation): the
render mesh passed is mesh 2 and the deformed part is part 2; the first part,
which carries the speckle pattern, is never passed to a deformation call, and
for a recognized selector exactly one deformed render call occurs. -/
theorem c8_only_window_deformed (p : ScriptParams) (s : ℕ → ℕ) :
    (∀ c ∈ deformCalls (runScript p [] s).1, c = (2, 2)) ∧
    (p.stereo_setup = "symmetric" ∨ p.stereo_setup = "faceon" →
      deformCalls (runScript p [] s).1 = [(2, 2)]) := by
  constructor
  · by_cases h1 : p.stereo_setup = "symmetric"
    · simp [runScript, scriptSteps, stereoBranch, runSteps, h1, deformCalls]
    · by_cases h2 : p.stereo_setup = "faceon"
      · simp [runScript, scriptSteps, stereoBranch, runSteps, h1, h2, deformCalls]
      · simp [runScript, scriptSteps, stereoBranch, runSteps, h1, h2, deformCalls]
  · rintro (h | h) <;>
      simp [runScript, scriptSteps, stereoBranch, runSteps, h, deformCalls]

/-- Witness for C8 at the shipped parameters. -/
theorem c8_only_window_deformed_witness :
    ((2, 2) : ℕ × ℕ) = (2, 2) ∧
    deformCalls (runScript codeParams [] id).1 = [(2, 2)] :=
  ⟨(c8_only_window_deformed codeParams id).1 (2, 2)
      (by simp [runScript, scriptSteps, stereoBranch, runSteps, codeParams, deformCalls]),
   (c8_only_window_deformed codeParams id).2 (Or.inr rfl)⟩

/-- C9: the calibration file is written before any light, speckle, material
or render configuration event, and its contents depend only on the camera
data bundle and the stereo selector: two runs agreeing on those two produce
identical calibration contents whatever their light, material, render or
renderer-sampling settings. -/
theorem c9_calibration_independent (p q : ScriptParams) (s t : ℕ → ℕ)
    (hcam : p.cam_data_0 = q.cam_data_0) (hsel : p.stereo_setup = q.stereo_setup)
    (hvalid : p.stereo_setup = "symmetric" ∨ p.stereo_setup = "faceon") :
    calibWrites (runScript p [] s).1 = calibWrites (runScript q [] t).1 ∧
    (runScript p [] s).1.findIdx isCalibEvent
      < (runScript p [] s).1.findIdx isSceneConfigEvent := by
  constructor
  · rcases hvalid with h | h <;>
      simp [runScript, scriptSteps, stereoBranch, stereoSystemOf, calibWrites, runSteps,
        h, hsel.symm.trans h, hcam]
  · rcases hvalid with h | h <;>
      simp [runScript, scriptSteps, stereoBranch, runSteps, h,
        isCalibEvent, isSceneConfigEvent, List.findIdx_cons]

/-- Witness for C9: the shipped parameters against the variant with different
light, material and render settings and a different sampling. -/
theorem c9_calibration_independent_witness :
    calibWrites (runScript codeParams [] id).1
      = calibWrites (runScript altParams [] Nat.succ).1 ∧
    (runScript codeParams [] id).1.findIdx isCalibEvent
      < (runScript codeParams [] id).1.findIdx isSceneConfigEvent :=
  c9_calibration_independent codeParams altParams id Nat.succ rfl rfl (Or.inr rfl)

/-- C4: for a fixed simulation input and fixed camera, light and material
parameters, the calibration contents and the rendered image file names are
identical across runs: they do not depend on the host renderer internal
sampling, which only affects the image pixel data. -/
theorem c4_deterministic_outputs (p : ScriptParams) (s t : ℕ → ℕ) :
    calibWrites (runScript p [] s).1 = calibWrites (runScript p [] t).1 ∧
    renderedFilenames (runScript p [] s).1 = renderedFilenames (runScript p [] t).1 := by
  by_cases h1 : p.stereo_setup = "symmetric"
  · constructor <;>
      simp [runScript, scriptSteps, stereoBranch, runSteps, h1, calibWrites,
        renderedFilenames]
  · by_cases h2 : p.stereo_setup = "faceon"
    · constructor <;>
        simp [runScript, scriptSteps, stereoBranch, runSteps, h1, h2, calibWrites,
          renderedFilenames]
    · constructor <;>
        simp [runScript, scriptSteps, stereoBranch, runSteps, h1, h2, calibWrites,
          renderedFilenames]

/-- C6: the glass-material assignment resolves its target purely by the
string name "Part.001" in the object registry: whenever some object of that
name exists the assignment succeeds and every object of that name gets
"Material.001" as active material, and when no such object exists the
assignment fails. -/
theorem c6_assign_by_name (objs : List BObject) :
    ((∃ o ∈ objs, o.name = "Part.001") →
      ∃ objs2, assignGlass objs = some objs2 ∧
        ∀ o ∈ objs2, o.name = "Part.001" → o.active_material = some "Material.001") ∧
    ((∀ o ∈ objs, o.name ≠ "Part.001") → assignGlass objs = none) := by
  constructor
  · rintro ⟨o, ho, hname⟩
    cases hlk : lookupObject objs "Part.001" with
    | none =>
      rw [lookupObject, List.find?_eq_none] at hlk
      have hcontra := hlk o ho
      simp [hname] at hcontra
    | some o2 =>
      refine ⟨_, by rw [assignGlass, hlk], ?_⟩
      intro o3 ho3 hname3
      obtain ⟨o4, ho4, hmap⟩ := List.mem_map.mp ho3
      by_cases h4 : o4.name = "Part.001"
      · rw [← hmap]
        simp [h4]
      · rw [← hmap] at hname3
        simp [h4] at hname3
  · intro h
    have hlk : lookupObject objs "Part.001" = none := by
      rw [lookupObject, List.find?_eq_none]
      intro o ho
      simp [h o ho]
    rw [assignGlass, hlk]

/-- Witness for C6: a registry holding a "Part.001" object, and one without.
-/
theorem c6_assign_by_name_witness :
    (∃ objs2,
      assignGlass [⟨"Camera", none⟩, ⟨"Part.001", none⟩] = some objs2 ∧
        ∀ o ∈ objs2, o.name = "Part.001" → o.active_material = some "Material.001") ∧
    assignGlass [⟨"Cube", none⟩] = none :=
  ⟨(c6_assign_by_name [⟨"Camera", none⟩, ⟨"Part.001", none⟩]).1
      ⟨⟨"Part.001", none⟩, by simp, rfl⟩,
   (c6_assign_by_name [⟨"Cube", none⟩]).2 (by simp)⟩
